import Mathlib

/-!
Verification of the `galaxy.py` report-backed entity graph.

The module under study is a thin, lazily materialized object model over a
single JSON-like "full universe report".  We embed the data model and the
operations of `galaxy.py` shallowly: Python dict-like data views become
association lists over a small `Value` type, fallible operations return
`Except PyError`, floats are idealized as real numbers, and the network
fetch performed by `request` (whose module is not part of the studied
source) is abstracted as an oracle that yields a `Report`.
-/

/-- Kinds of Python exceptions that the embedded operations can raise. -/
inductive PyError where
  | nameError
  | keyError
  | valueError
  | attributeError
  | recursionError
  deriving DecidableEq, Repr

deriving instance DecidableEq for Except

/-- A JSON-ish scalar value as stored in a report's data views.
`obj` tags a non-scalar Python object (a method, a module, an entity)
whose identity is all the claims need. -/
inductive Value where
  | str (s : String)
  | int (z : ℤ)
  | num (q : ℚ)
  | boolean (b : Bool)
  | obj (tag : String)
  deriving DecidableEq, Repr

/-- Python `==` on the embedded values: numeric types compare by value
(`bool` is an `int` subclass, so `True == 1`), strings compare by content,
and values of unrelated types are unequal (`'1' == 1` is `False`). -/
def pyEq : Value → Value → Bool
  | .str a, .str b => a == b
  | .int a, .int b => a == b
  | .num a, .num b => a == b
  | .int a, .num b => ((a : ℚ) == b)
  | .num a, .int b => (a == (b : ℚ))
  | .boolean a, .boolean b => a == b
  | .boolean a, .int b => ((if a then (1 : ℤ) else 0) == b)
  | .int a, .boolean b => (a == (if b then (1 : ℤ) else 0))
  | .boolean a, .num b => ((if a then (1 : ℚ) else 0) == b)
  | .num a, .boolean b => (a == (if b then (1 : ℚ) else 0))
  | .obj a, .obj b => a == b
  | _, _ => false

/-- A data view: the mapping of canonical field names to values that an
entity draws its information from (one star's or fleet's slice of the
report). -/
abbrev DataView := List (String × Value)

/-- Key lookup in a data view (Python dict indexing, first binding wins). -/
def lookupData (d : DataView) (k : String) : Option Value :=
  (d.find? (fun p => p.1 == k)).map (·.2)

/-- Digits of a decimal literal to a natural number; `none` on a
non-digit.  The empty list yields `0` (callers guard emptiness). -/
def digitsVal (cs : List Char) : Option ℕ :=
  cs.foldl
    (fun acc c =>
      match acc with
      | some a => if c.isDigit then some (10 * a + (c.toNat - 48)) else none
      | none => none)
    (some 0)

/-- Split a character list at the first `'.'` (integer part, fraction part). -/
def splitDot : List Char → (List Char × List Char)
  | [] => ([], [])
  | c :: t => if c = '.' then ([], t) else
      let p := splitDot t
      (c :: p.1, p.2)

/-- The fragment of Python `float(<string>)` parsing used by the report:
an optional sign, then decimal digits with an optional fractional part.
Idealized to an exact rational. -/
def parseDecimal (s : String) : Option ℚ :=
  let signed : Bool × List Char :=
    match s.data with
    | '-' :: t => (true, t)
    | '+' :: t => (false, t)
    | t => (false, t)
  let p := splitDot signed.2
  if p.1 = [] ∧ p.2 = [] then none
  else
    match digitsVal p.1, digitsVal p.2 with
    | some i, some f =>
        let mag : ℚ := (i : ℚ) + (f : ℚ) / ((10 : ℚ) ^ p.2.length)
        some (if signed.1 then -mag else mag)
    | _, _ => none

/-- Python `float(v)` on an embedded value: numeric strings parse, numbers
and booleans coerce, anything else raises (modelled by `none`). -/
def pyFloat : Value → Option ℚ
  | .str s => parseDecimal s
  | .int z => some (z : ℚ)
  | .num q => some q
  | .boolean b => some (if b then 1 else 0)
  | .obj _ => none

/-- One fetched snapshot of full game state (`full_universe_report`).
Scalar flags are typed as the spec's data model fixes them; `turn_based`
may be absent.  `stars` and `players` are dense sequences, `fleets` is the
sparse `fleet_id → fields` mapping. -/
structure Report where
  game_over : Bool
  started : Bool
  paused : Bool
  turn_based : Option ℤ
  now_ms : ℤ
  start_time_ms : ℤ
  player_uid : ℕ
  admin_uid : ℕ
  players : List DataView
  stars : List DataView
  fleets : List (ℕ × DataView)
  deriving DecidableEq, Repr

/-- Python truthiness of a fetched report.  The report guard in
`Galaxy.report` is `if not self._report`; a report is a populated mapping
(it always carries its scalar keys per the data model), so it is truthy. -/
def Report.truthy (_ : Report) : Bool := true

/-- The root aggregate: identity `(game_number, cookies)` plus the
nullable `_report` cache slot (class default `None`). -/
structure Galaxy where
  game_number : ℤ
  cookies : Value
  _report : Option Report
  deriving DecidableEq, Repr

/-- `Galaxy.__init__`: stores the credentials, performs no fetch
(`_report` stays at its class default `None`). -/
def Galaxy.init (gn : ℤ) (ck : Value) : Galaxy :=
  { game_number := gn, cookies := ck, _report := none }

/-- The names bound at module scope in `galaxy.py` (its imports and class
statements).  Neither `game_number` nor `cookies` is among them. -/
def moduleGlobals : DataView :=
  [("math", .obj "module math"),
   ("request", .obj "function request"),
   ("Galaxy", .obj "class Galaxy"),
   ("_HasGalaxy", .obj "class _HasGalaxy"),
   ("_HasData", .obj "class _HasData"),
   ("Fleet", .obj "class Fleet"),
   ("Star", .obj "class Star")]

/-- `Galaxy.update_state` exactly as written: the call
`request('order', order='full_universe_report', game_number=game_number,
cookies=cookies)` evaluates the bare names `game_number` and `cookies` in
the module scope (not `self.game_number` / `self.cookies`), raising
`NameError` before `request` runs when they are unbound there.
`fetch` abstracts the network collaborator. -/
def Galaxy.updateStateCode (fetch : Value → Value → Report) (g : Galaxy) :
    Except PyError Galaxy :=
  match lookupData moduleGlobals "game_number", lookupData moduleGlobals "cookies" with
  | some gn, some ck => .ok { g with _report := some (fetch gn ck) }
  | _, _ => .error .nameError

/-- Modelled from the spec: `update_state()` as documented — a fetch with
`order=full_universe_report` using the galaxy's own stored
`(game_number, cookies)`, unconditionally replacing any held report.
(The source line instead evaluates unbound module-level names; this
definition follows the spec's words for comparison.) -/
def Galaxy.updateStateSpec (fetch : ℤ → Value → Report) (g : Galaxy) : Galaxy :=
  { g with _report := some (fetch g.game_number g.cookies) }

/-- The `Galaxy.report` property with the fetch effect abstracted:
`if not self._report: self.update_state(); return self._report`.
Returns the report produced, the updated galaxy, and how many
`update_state` fetches were issued by this access (0 or 1). -/
def Galaxy.reportAccess (fetched : Report) (g : Galaxy) :
    Report × Galaxy × ℕ :=
  match g._report with
  | none => (fetched, { g with _report := some fetched }, 1)
  | some r =>
      if r.truthy then (r, g, 0)
      else (fetched, { g with _report := some fetched }, 1)

/-- `Galaxy.game_state`: the if-chain over the report's flags, first
match wins. -/
def gameState (r : Report) : String :=
  if r.game_over then "finished"
  else if !r.started then "not started"
  else if r.paused then "paused"
  else "running"

/-- `Galaxy.turn_based`: `self.report.turn_based == 1`.  Modelled from the
spec for an absent flag (the report object's attribute behaviour lives in
the absent `request` module): absence yields `False`, not an error. -/
def turnBased (r : Report) : Bool :=
  match r.turn_based with
  | some z => z == 1
  | none => false

/-- A `Star` entity: the data view it captured from
`galaxy.report.stars[star_id]` at construction time. -/
structure StarV where
  data : DataView
  deriving DecidableEq, Repr

/-- A `Fleet` entity: the data view it captured from
`galaxy.report.fleets[fleet_id]` at construction time. -/
structure FleetV where
  data : DataView
  deriving DecidableEq, Repr

/-- `Star.visible`: `self.data.v == '1'` — comparison against the literal
string sentinel under Python `==`; an absent `v` is non-visible. -/
def StarV.visible (s : StarV) : Bool :=
  match lookupData s.data "v" with
  | some v => pyEq v (.str "1")
  | none => false

/-- The float-coercing accessors `Star.x` / `Star.y` (and the `Fleet`
ones): `float(self.data.x)`.  A missing key raises, a non-numeric value
raises `ValueError`. -/
def floatAttr (d : DataView) (k : String) : Except PyError Value :=
  match lookupData d k with
  | some v =>
      match pyFloat v with
      | some q => .ok (.num q)
      | none => .error .valueError
  | none => .error .attributeError

/-- `Star.player`: `None` for the unowned sentinel `puid == -1`, else the
owning `Player` entity (represented by an `obj` tag). -/
def StarV.playerAttr (s : StarV) : Except PyError Value :=
  match lookupData s.data "puid" with
  | some v => if pyEq v (.int (-1)) then .ok (.obj "None") else .ok (.obj "Player")
  | none => .error .attributeError

/-- The attributes of a `Star` instance that ordinary Python lookup finds
before `__getattr__` runs: the instance slots `data` and `galaxy`, the
class attribute `aliases`, the properties `player`, `visible`, `x`, `y`
and the method `distance`. -/
def StarV.definedAttr (s : StarV) : String → Option (Except PyError Value)
  | "x" => some (floatAttr s.data "x")
  | "y" => some (floatAttr s.data "y")
  | "visible" => some (.ok (.boolean s.visible))
  | "player" => some s.playerAttr
  | "distance" => some (.ok (.obj "method distance"))
  | "data" => some (.ok (.obj "instance data"))
  | "galaxy" => some (.ok (.obj "instance galaxy"))
  | "aliases" => some (.ok (.obj "class aliases"))
  | _ => none

/-- The `Star.aliases` table, friendly name → canonical name. -/
def starAliases : String → Option String
  | "owner" => some "player"
  | "name" => some "n"
  | "star_id" => some "uid"
  | "economy" => some "e"
  | "carriers" => some "c"
  | "garrison" => some "g"
  | "industry" => some "i"
  | "resources" => some "r"
  | "natural_resources" => some "nr"
  | "natural" => some "nr"
  | "science" => some "s"
  | "ships" => some "st"
  | _ => none

/-- Attribute access on a `Star` exactly as the source behaves: a defined
accessor wins; every other name falls into `_HasData.__getattr__`, whose
first line `if attr in aliases` evaluates the bare name `aliases` — which
is unbound in every enclosing scope — so it raises `NameError` before the
alias table or the data view can be consulted. -/
def StarV.getattrCode (s : StarV) (attr : String) : Except PyError Value :=
  match s.definedAttr attr with
  | some r => r
  | none => .error .nameError

/-- Modelled from the spec (and `_HasData`'s own docstring, which reads
`self.aliases`): the intended fallback — a defined accessor wins, an
aliased name resolves recursively through its canonical name, otherwise
the name is looked up directly in the data view, otherwise the lookup
fails.  `fuel` bounds the alias recursion as Python's recursion limit
does. -/
def StarV.getattrSpec (s : StarV) : ℕ → String → Except PyError Value
  | 0, _ => .error .recursionError
  | Nat.succ fuel, attr =>
      match s.definedAttr attr with
      | some r => r
      | none =>
          match starAliases attr with
          | some canon => s.getattrSpec fuel canon
          | none =>
              match lookupData s.data attr with
              | some v => .ok v
              | none => .error .keyError

/-- `Fleet.__init__`'s data capture `self.data = self.galaxy.report.fleets[fleet_id]`.
The key the comprehension in `Galaxy.fleets` actually passes is either a
fleet id or the Python builtin function `id`. -/
inductive FleetKey where
  | fid (n : ℕ)
  | builtinId
  deriving DecidableEq, Repr

/-- Indexing the sparse fleets mapping by a key: an id hits its entry or
raises `KeyError`; the builtin function `id` is never a key. -/
def fleetLookup (fleets : List (ℕ × DataView)) : FleetKey → Except PyError DataView
  | .fid n =>
      match (fleets.find? (fun p => p.1 == n)).map (·.2) with
      | some d => .ok d
      | none => .error .keyError
  | .builtinId => .error .keyError

/-- `Galaxy.fleets` exactly as written: the dict comprehension
`{fleet_id: Fleet(id, galaxy=self) for fleet_id, fleet_data in report.fleets.items()}`
passes the builtin `id` — not `fleet_id` — to every `Fleet`, whose
constructor then indexes `report.fleets` with it. -/
def galaxyFleetsCode (r : Report) : Except PyError (List (ℕ × FleetV)) :=
  r.fleets.mapM (fun p => (fleetLookup r.fleets .builtinId).map (fun d => (p.1, FleetV.mk d)))

/-- Modelled from the spec: the comprehension with each `Fleet` built from
its own `fleet_id`, as the surrounding comment describes. -/
def galaxyFleetsSpec (r : Report) : Except PyError (List (ℕ × FleetV)) :=
  r.fleets.mapM (fun p => (fleetLookup r.fleets (.fid p.1)).map (fun d => (p.1, FleetV.mk d)))

/-- `Star(star_id, galaxy=g)` (with the fetch effect abstracted):
`_HasGalaxy.__init__` keeps the given galaxy, then `Star.__init__`
immediately evaluates `self.galaxy.report.stars[star_id]` to capture the
data view.  Returns the star, the galaxy after construction, and the
number of fetches the construction issued. -/
def mkStarFromGalaxy (fetched : Report) (g : Galaxy) (star_id : ℕ) :
    Except PyError (StarV × Galaxy × ℕ) :=
  let a := Galaxy.reportAccess fetched g
  match a.1.stars[star_id]? with
  | some d => .ok (⟨d⟩, a.2.1, a.2.2)
  | none => .error .keyError

/-- `Star(star_id, game_number=gn, cookies=ck)`: `_HasGalaxy.__init__`
builds a private `Galaxy` (no fetch there), then `Star.__init__` reads
its `report` while the constructor is still running. -/
def mkStarFromCreds (fetched : Report) (gn : ℤ) (ck : Value) (star_id : ℕ) :
    Except PyError (StarV × Galaxy × ℕ) :=
  mkStarFromGalaxy fetched (Galaxy.init gn ck) star_id

/-- `Fleet(fleet_id, game_number=gn, cookies=ck)`: like the star case,
`Fleet.__init__` evaluates `self.galaxy.report.fleets[fleet_id]` while
construction is still running. -/
def mkFleetFromCreds (fetched : Report) (gn : ℤ) (ck : Value) (k : FleetKey) :
    Except PyError (FleetV × Galaxy × ℕ) :=
  let a := Galaxy.reportAccess fetched (Galaxy.init gn ck)
  match fleetLookup a.1.fleets k with
  | .ok d => .ok (⟨d⟩, a.2.1, a.2.2)
  | .error e => .error e


/-- Concrete star at position (0, 0), visible, unowned. -/
def starD0 : DataView :=
  [("uid", .int 0), ("n", .str "Sol"), ("x", .str "0"), ("y", .str "0"),
   ("v", .str "1"), ("puid", .int (-1))]

/-- Concrete star at position (3, 4). -/
def starD34 : DataView :=
  [("uid", .int 1), ("n", .str "Vega"), ("x", .str "3"), ("y", .str "4"),
   ("v", .str "0"), ("puid", .int 2)]

/-- Concrete star at position (1, 1). -/
def starD11 : DataView :=
  [("uid", .int 2), ("x", .str "1"), ("y", .str "1")]

/-- Concrete fleet data, id 7. -/
def fleetD7 : DataView :=
  [("uid", .int 7), ("n", .str "Armada"), ("st", .int 12), ("puid", .int 2),
   ("x", .str "3"), ("y", .str "4")]

/-- A concrete full universe report used by the witnesses. -/
def exampleReport : Report :=
  { game_over := false, started := true, paused := false,
    turn_based := some 1, now_ms := 1620000000000,
    start_time_ms := 1610000000000, player_uid := 0, admin_uid := 0,
    players := [[("alias", .str "p0")]],
    stars := [starD0, starD34, starD11],
    fleets := [(7, fleetD7)] }

/-- The fetch count of a constructed entity, when construction succeeded. -/
def fetchesOf : Except PyError (StarV × Galaxy × ℕ) → Option ℕ
  | .ok t => some t.2.2
  | .error _ => none

/-- C1: accessing `report` returns the currently held report; it issues
exactly one `update_state` fetch when none has ever been fetched, two
consecutive accesses with no intervening `update_state` issue at most one
fetch in total, and an access never re-fetches an already-held report. -/
theorem C1_report_cached (fetched : Report) (g : Galaxy) :
    (g._report = none →
      Galaxy.reportAccess fetched g = (fetched, { g with _report := some fetched }, 1))
    ∧ (∀ r, g._report = some r → Galaxy.reportAccess fetched g = (r, g, 0))
    ∧ (Galaxy.reportAccess fetched (Galaxy.reportAccess fetched g).2.1).2.2 = 0
    ∧ (Galaxy.reportAccess fetched g).2.2
        + (Galaxy.reportAccess fetched (Galaxy.reportAccess fetched g).2.1).2.2 ≤ 1 := by
  rcases hg : g._report with _ | r <;>
    simp [Galaxy.reportAccess, Report.truthy, hg]

/-- C1 witness: a fresh galaxy's first `report` access fetches once and
caches; the immediately following access fetches nothing. -/
theorem C1_report_cached_witness :
    Galaxy.reportAccess exampleReport (Galaxy.init 1 (.str "ck"))
      = (exampleReport, ⟨1, .str "ck", some exampleReport⟩, 1)
    ∧ Galaxy.reportAccess exampleReport ⟨1, .str "ck", some exampleReport⟩
      = (exampleReport, ⟨1, .str "ck", some exampleReport⟩, 0) :=
  ⟨(C1_report_cached exampleReport (Galaxy.init 1 (.str "ck"))).1 rfl,
   (C1_report_cached exampleReport ⟨1, .str "ck", some exampleReport⟩).2.1 exampleReport rfl⟩

/-- C2: `game_state` evaluates `game_over`, then `started`, then `paused`,
first match winning: `game_over` forces "finished" regardless of the other
flags, then "not started", "paused", "running" in that order. -/
theorem C2_game_state_order (r : Report) :
    (r.game_over = true → gameState r = "finished")
    ∧ (r.game_over = false → r.started = false → gameState r = "not started")
    ∧ (r.game_over = false → r.started = true → r.paused = true → gameState r = "paused")
    ∧ (r.game_over = false → r.started = true → r.paused = false → gameState r = "running") := by
  refine ⟨fun h1 => ?_, fun h1 h2 => ?_, fun h1 h2 h3 => ?_, fun h1 h2 h3 => ?_⟩
  · simp [gameState, h1]
  · simp [gameState, h1, h2]
  · simp [gameState, h1, h2, h3]
  · simp [gameState, h1, h2, h3]

/-- C2 witness: a finished-and-paused game reports "finished". -/
theorem C2_game_state_order_witness :
    gameState ⟨true, true, true, some 1, 0, 0, 0, 0, [], [], []⟩ = "finished" :=
  (C2_game_state_order ⟨true, true, true, some 1, 0, 0, 0, 0, [], [], []⟩).1 rfl

/-- C7: `Star.visible` holds exactly when the stored `v` is the literal
string `'1'`; the string `'0'`, the integer `1`, and an absent `v` are all
non-visible (Python `==` against the sentinel, not truthiness). -/
theorem C7_visible_sentinel (s : StarV) :
    (s.visible = true ↔ lookupData s.data "v" = some (.str "1"))
    ∧ StarV.visible ⟨[("v", .str "0")]⟩ = false
    ∧ StarV.visible ⟨[("v", .int 1)]⟩ = false
    ∧ StarV.visible ⟨[]⟩ = false := by
  refine ⟨?_, by decide, by decide, by decide⟩
  unfold StarV.visible
  rcases hv : lookupData s.data "v" with _ | v
  · simp
  · rcases v <;> simp [pyEq]

/-- C7 witness: at a concrete star storing `v = '1'`, `visible` is true. -/
theorem C7_visible_sentinel_witness :
    StarV.visible ⟨starD0⟩ = true :=
  (C7_visible_sentinel ⟨starD0⟩).1.mpr (by decide)

/-- C8: `turn_based` is true iff the stored flag equals exactly the
integer 1; the values 0 and 2 and an absent flag all yield false rather
than an error. -/
theorem C8_turn_based (r : Report) :
    (turnBased r = true ↔ r.turn_based = some 1)
    ∧ turnBased { exampleReport with turn_based := some 0 } = false
    ∧ turnBased { exampleReport with turn_based := some 2 } = false
    ∧ turnBased { exampleReport with turn_based := none } = false := by
  refine ⟨?_, by decide, by decide, by decide⟩
  unfold turnBased
  rcases ht : r.turn_based with _ | z <;> simp

/-- C8 witness: at a concrete report storing the flag 1, `turn_based` is
true. -/
theorem C8_turn_based_witness : turnBased exampleReport = true :=
  (C8_turn_based exampleReport).1.mpr (by decide)

/-- A report whose sparse fleets mapping is empty. -/
def emptyFleetsReport : Report := { exampleReport with fleets := [] }

theorem parseDecimal_zero : parseDecimal "0" = some 0 := by
  have h : "0".data = ['0'] := rfl
  simp [parseDecimal, h, splitDot, digitsVal]

theorem parseDecimal_one : parseDecimal "1" = some 1 := by
  have h : "1".data = ['1'] := rfl
  simp [parseDecimal, h, splitDot, digitsVal]

theorem parseDecimal_three : parseDecimal "3" = some 3 := by
  have h : "3".data = ['3'] := rfl
  simp [parseDecimal, h, splitDot, digitsVal]

theorem parseDecimal_four : parseDecimal "4" = some 4 := by
  have h : "4".data = ['4'] := rfl
  simp [parseDecimal, h, splitDot, digitsVal]

/-- C4 (code bug): the claimed lookup precedence — accessor, then alias
table, then data view — is what `_HasData`'s docstring describes, but the
source's `__getattr__` reads the bare name `aliases`, which is bound in no
enclosing scope, so every lookup that falls past a defined accessor raises
`NameError`: the aliased `name` and even the canonical data key `n` are
unreachable.  The accessor half of the claim does hold: `x` stored as the
string `'3'` comes back float-coerced.  The spec-modelled resolution
(`getattrSpec`, following the docstring's `self.aliases`) behaves as the
claim states. -/
theorem C4_getattr_name_error :
    lookupData moduleGlobals "aliases" = none
    ∧ lookupData starD34 "n" = some (.str "Vega")
    ∧ StarV.getattrCode ⟨starD34⟩ "name" = .error .nameError
    ∧ StarV.getattrCode ⟨starD34⟩ "n" = .error .nameError
    ∧ StarV.getattrCode ⟨starD34⟩ "x" = .ok (.num 3)
    ∧ StarV.getattrSpec ⟨starD34⟩ 4 "name" = .ok (.str "Vega")
    ∧ StarV.getattrSpec ⟨starD34⟩ 4 "n" = .ok (.str "Vega")
    ∧ StarV.getattrSpec ⟨starD34⟩ 4 "x" = .ok (.num 3) := by
  refine ⟨rfl, rfl, rfl, rfl, ?_, rfl, rfl, ?_⟩ <;>
    simp [StarV.getattrCode, StarV.getattrSpec, StarV.definedAttr, floatAttr,
      starD34, lookupData, pyFloat, parseDecimal_three]

/-- C5 (code bug): the dict comprehension in `Galaxy.fleets` constructs
every value as `Fleet(id, galaxy=self)` — `id` the Python builtin, not the
loop's `fleet_id` — so `Fleet.__init__`'s lookup
`report.fleets[fleet_id]` raises `KeyError` for any report with a visible
fleet (only an empty mapping survives).  The spec-modelled comprehension
(`galaxyFleetsSpec`, keyed by `fleet_id`) yields exactly the claimed
mapping. -/
theorem C5_fleets_key_error :
    galaxyFleetsCode exampleReport = .error .keyError
    ∧ galaxyFleetsCode emptyFleetsReport = .ok []
    ∧ galaxyFleetsSpec exampleReport = .ok [(7, ⟨fleetD7⟩)] := by
  decide

/-- A concrete fetch oracle whose result records the game number it was
asked for, so that credential use is observable. -/
def fetchTagged : ℤ → Value → Report :=
  fun gn ck => { exampleReport with now_ms := gn, players := [[("cookies", ck)]] }

/-- C6 (code bug): `update_state` as written evaluates the bare names
`game_number` and `cookies` — unbound at module scope — so it raises
`NameError` before any fetch happens, for every galaxy and any fetch
collaborator; the spec-modelled `update_state` uses the galaxy's own
stored credentials and unconditionally replaces a previously held
report. -/
theorem C6_update_state_name_error :
    lookupData moduleGlobals "game_number" = none
    ∧ lookupData moduleGlobals "cookies" = none
    ∧ Galaxy.updateStateCode (fun _ _ => exampleReport) (Galaxy.init 7 (.str "ck"))
        = .error .nameError
    ∧ Galaxy.updateStateCode (fun _ _ => exampleReport) ⟨9, .str "other", some emptyFleetsReport⟩
        = .error .nameError
    ∧ (Galaxy.updateStateSpec fetchTagged (Galaxy.init 7 (.str "ck")))._report
        = some (fetchTagged 7 (.str "ck"))
    ∧ (Galaxy.updateStateSpec fetchTagged ⟨9, .str "other", some emptyFleetsReport⟩)._report
        = some (fetchTagged 9 (.str "other")) := by
  decide

/-- C9 counterexample: building `Star(0, game_number=3, cookies=ck)` from
raw credentials issues its single fetch during construction — the fetch
count of the finished constructor is 1, not the claimed 0, because
`Star.__init__` reads `self.galaxy.report` to capture its data view. -/
theorem C9_counterexample :
    fetchesOf (mkStarFromCreds exampleReport 3 (.str "ck") 0) = some 1
    ∧ fetchesOf (mkStarFromCreds exampleReport 3 (.str "ck") 0) ≠ some 0 := by
  decide

/-- C9 (amended): constructing the private `Galaxy` itself fetches
nothing, but a `Star` or `Fleet` built from raw credentials issues exactly
one fetch *during construction* — `__init__` captures the entity's data
view from `galaxy.report` — rather than deferring it to the first field
access. -/
theorem C9_construction_fetch (fetched : Report) (gn : ℤ) (ck : Value)
    (sid : ℕ) (d : DataView) (k : FleetKey) (fd : DataView)
    (hd : fetched.stars[sid]? = some d)
    (hf : fleetLookup fetched.fleets k = .ok fd) :
    (Galaxy.init gn ck)._report = none
    ∧ mkStarFromCreds fetched gn ck sid = .ok (⟨d⟩, ⟨gn, ck, some fetched⟩, 1)
    ∧ mkFleetFromCreds fetched gn ck k = .ok (⟨fd⟩, ⟨gn, ck, some fetched⟩, 1) := by
  refine ⟨rfl, ?_, ?_⟩
  · simp [mkStarFromCreds, mkStarFromGalaxy, Galaxy.reportAccess, Galaxy.init, hd]
  · simp [mkFleetFromCreds, Galaxy.reportAccess, Galaxy.init, hf]

/-- C9 amended-claim witness: concrete star id 0 and fleet id 7, fetched
during construction with exactly one fetch each. -/
theorem C9_construction_fetch_witness :
    mkStarFromCreds exampleReport 3 (.str "ck") 0
      = .ok (⟨starD0⟩, ⟨3, .str "ck", some exampleReport⟩, 1)
    ∧ mkFleetFromCreds exampleReport 3 (.str "ck") (.fid 7)
      = .ok (⟨fleetD7⟩, ⟨3, .str "ck", some exampleReport⟩, 1) :=
  ⟨(C9_construction_fetch exampleReport 3 (.str "ck") 0 starD0 (.fid 7) fleetD7
      (by decide) (by decide)).2.1,
   (C9_construction_fetch exampleReport 3 (.str "ck") 0 starD0 (.fid 7) fleetD7
      (by decide) (by decide)).2.2⟩

/-- The float-coerced stored `x` position a star's `x` accessor yields
(`float(self.data.x)`); `none` when the key is missing or non-numeric. -/
def StarV.xRat (s : StarV) : Option ℚ :=
  (lookupData s.data "x").bind pyFloat

/-- The float-coerced stored `y` position, as `StarV.xRat`. -/
def StarV.yRat (s : StarV) : Option ℚ :=
  (lookupData s.data "y").bind pyFloat

/-- `Star.distance(other)` with `as_level=False`:
`math.sqrt((self.x - other.x)**2 + (self.y - other.y)**2)` over the
float-coerced positions, idealized over the reals. -/
noncomputable def StarV.dist (a b : StarV) : Option ℝ :=
  match a.xRat, a.yRat, b.xRat, b.yRat with
  | some ax, some ay, some bx, some byq =>
      some (Real.sqrt (((ax : ℝ) - (bx : ℝ)) ^ 2 + ((ay : ℝ) - (byq : ℝ)) ^ 2))
  | _, _, _, _ => none

/-- `Star.distance(other, as_level=True)`:
`level = math.ceil(dist) - 3`, and any level below 1 becomes 1. -/
noncomputable def StarV.distLevel (a b : StarV) : Option ℤ :=
  (StarV.dist a b).map (fun d =>
    if ⌈d⌉ - 3 < 1 then 1 else ⌈d⌉ - 3)

/-- C3: between stars with float-coercible positions, `distance` is the
Euclidean distance over the coerced coordinates, and the `as_level`
variant is `ceil(distance) - 3` clamped below at 1 (stated with `max`). -/
theorem C3_distance_formula (a b : StarV) (ax ay bx byq : ℚ)
    (hax : a.xRat = some ax) (hay : a.yRat = some ay)
    (hbx : b.xRat = some bx) (hby : b.yRat = some byq) :
    StarV.dist a b
      = some (Real.sqrt (((ax : ℝ) - bx) ^ 2 + ((ay : ℝ) - byq) ^ 2))
    ∧ StarV.distLevel a b
      = some (max 1 (⌈Real.sqrt (((ax : ℝ) - bx) ^ 2 + ((ay : ℝ) - byq) ^ 2)⌉ - 3)) := by
  have hd : StarV.dist a b
      = some (Real.sqrt (((ax : ℝ) - bx) ^ 2 + ((ay : ℝ) - byq) ^ 2)) := by
    simp [StarV.dist, hax, hay, hbx, hby]
  refine ⟨hd, ?_⟩
  rw [StarV.distLevel, hd, Option.map_some']
  congr 1
  rcases lt_or_le (⌈Real.sqrt (((ax : ℝ) - bx) ^ 2 + ((ay : ℝ) - byq) ^ 2)⌉ - 3) 1 with h | h
  · rw [if_pos h, max_eq_left h.le]
  · rw [if_neg (not_lt.mpr h), max_eq_right h]

/-- C3 witness: stars at (0,0) and (3,4) are at raw distance 5.0 and
range level 2; stars at (0,0) and (1,1) clamp to range level 1. -/
theorem C3_distance_formula_witness :
    StarV.dist ⟨starD0⟩ ⟨starD34⟩ = some 5
    ∧ StarV.distLevel ⟨starD0⟩ ⟨starD34⟩ = some 2
    ∧ StarV.distLevel ⟨starD0⟩ ⟨starD11⟩ = some 1 := by
  have hx0 : StarV.xRat ⟨starD0⟩ = some 0 := by
    simp [StarV.xRat, starD0, lookupData, pyFloat, parseDecimal_zero]
  have hy0 : StarV.yRat ⟨starD0⟩ = some 0 := by
    simp [StarV.yRat, starD0, lookupData, pyFloat, parseDecimal_zero]
  have hx34 : StarV.xRat ⟨starD34⟩ = some 3 := by
    simp [StarV.xRat, starD34, lookupData, pyFloat, parseDecimal_three]
  have hy34 : StarV.yRat ⟨starD34⟩ = some 4 := by
    simp [StarV.yRat, starD34, lookupData, pyFloat, parseDecimal_four]
  have hx11 : StarV.xRat ⟨starD11⟩ = some 1 := by
    simp [StarV.xRat, starD11, lookupData, pyFloat, parseDecimal_one]
  have hy11 : StarV.yRat ⟨starD11⟩ = some 1 := by
    simp [StarV.yRat, starD11, lookupData, pyFloat, parseDecimal_one]
  have h34 := C3_distance_formula ⟨starD0⟩ ⟨starD34⟩ 0 0 3 4 hx0 hy0 hx34 hy34
  have h11 := C3_distance_formula ⟨starD0⟩ ⟨starD11⟩ 0 0 1 1 hx0 hy0 hx11 hy11
  have hs5 : Real.sqrt ((((0 : ℚ) : ℝ) - ((3 : ℚ) : ℝ)) ^ 2 + (((0 : ℚ) : ℝ) - ((4 : ℚ) : ℝ)) ^ 2) = 5 := by
    have he : ((((0 : ℚ) : ℝ) - ((3 : ℚ) : ℝ)) ^ 2 + (((0 : ℚ) : ℝ) - ((4 : ℚ) : ℝ)) ^ 2) = 5 ^ 2 := by
      norm_num
    rw [he, Real.sqrt_sq (by norm_num : (0 : ℝ) ≤ 5)]
  have he2 : ((((0 : ℚ) : ℝ) - ((1 : ℚ) : ℝ)) ^ 2 + (((0 : ℚ) : ℝ) - ((1 : ℚ) : ℝ)) ^ 2) = 2 := by
    norm_num
  have hceil2 : ⌈Real.sqrt 2⌉ = 2 := by
    rw [Int.ceil_eq_iff]
    constructor
    · have h12 : (1 : ℝ) < Real.sqrt 2 := by
        rw [show (1 : ℝ) = Real.sqrt 1 by rw [Real.sqrt_one]]
        exact Real.sqrt_lt_sqrt (by norm_num) (by norm_num)
      calc ((2 : ℤ) : ℝ) - 1 = 1 := by norm_num
        _ < Real.sqrt 2 := h12
    · rw [show ((2 : ℤ) : ℝ) = Real.sqrt (2 ^ 2) by rw [Real.sqrt_sq (by norm_num : (0 : ℝ) ≤ 2)]; norm_num]
      exact Real.sqrt_le_sqrt (by norm_num)
  refine ⟨?_, ?_, ?_⟩
  · rw [h34.1, hs5]
  · rw [h34.2, hs5]
    norm_num
  · rw [h11.2, he2, hceil2]
    norm_num

/-- C10: distance between stars of one snapshot is symmetric, both as the
raw distance and as the range level. -/
theorem C10_distance_symmetric (a b : StarV) :
    StarV.dist a b = StarV.dist b a
    ∧ StarV.distLevel a b = StarV.distLevel b a := by
  have hd : StarV.dist a b = StarV.dist b a := by
    unfold StarV.dist
    rcases hax : a.xRat with _ | ax <;> rcases hay : a.yRat with _ | ay <;>
      rcases hbx : b.xRat with _ | bx <;> rcases hby : b.yRat with _ | byq <;>
      simp
    congr 1
    ring
  exact ⟨hd, by rw [StarV.distLevel, StarV.distLevel, hd]⟩
